import Mathlib

/-!
Verification development for the botnet meeting-topic bot (`botnet.py`).

The bot keeps an ordered queue of meeting topics in the flat file
`topics.json` (a JSON document) and dispatches chat commands
(`#topic`, `#help`, `#list`, `#start`, `#next`, `#clear`, `#end`) arriving
in the room whose display name is `"dev"`.

We shallowly embed the in-scope core — the topic-queue store
(`get_topics` / `write_topics` / `add_topic` / `next_topic`) and the
command dispatcher (`cb_print_messages`) — as pure Lean functions.

Modelling conventions:
* Python values that can live in the topics file are modelled by `PyVal`
  (strings, integers and lists, which is enough to express both the
  well-formed states and the decodes-but-not-a-string-list states).
* The backing file is a `FileState`: absent, or present with content that
  `json.load` decodes to some `PyVal`, or present with content on which
  `json.load` raises `JSONDecodeError`.  The JSON library itself is an
  external dependency and is modelled abstractly by these constructors;
  `json.dump` of a `PyVal` followed by `json.load` yields the same value,
  which is the library's round-trip guarantee on this value fragment.
* Python exceptions are modelled with `Except PyErr`; a `try/except`
  clause becomes a `match` on the `Except` value.
* Python `str.strip`, `str.startswith` and slicing are modelled
  code-point-wise over `List Char` (`py_strip`, `py_startswith`,
  `py_slice_from`), matching Python's code-point semantics on the
  whitespace that actually occurs in chat messages.
* The outbound send primitive (`room_send` of the protocol client) is an
  external collaborator; its behaviour is a parameter `sendFails`
  telling for each message body whether the send raises.  `send_message`
  wraps it in the source's blanket `try/except`, returning the list of
  messages actually delivered (empty when the send raised and was
  swallowed).
* The store object holds no in-memory topic state in the source (every
  operation re-reads `topics.json`), so a store instance is fully
  represented by the `FileState` alone; "a fresh store instance reading
  the same backing file" is simply another call on the same `FileState`.
-/

namespace Botnet

/-- A Python value that can appear (after `json.load`) in the topics file.
Strings, integers and nested lists suffice for the states this
development reasons about. -/
inductive PyVal where
  | pystr (s : String)
  | pyint (n : Int)
  | pylist (xs : List PyVal)

/-- The Python exceptions the embedded core can raise. -/
inductive PyErr where
  /-- `json.JSONDecodeError`: file content did not parse as JSON. -/
  | jsonDecodeError
  /-- `AttributeError`: `.append` / `.pop` called on a non-list value. -/
  | attributeError
  /-- `TypeError`: iterating a non-iterable value. -/
  | typeError
  /-- a failure raised by the protocol client's send primitive. -/
  | sendError
  deriving DecidableEq

/-- State of the backing file `topics.json`.  A present file either
decodes (via `json.load`) to a `PyVal`, or raises `JSONDecodeError`;
the raw text of an undecodable file is irrelevant beyond its identity. -/
inductive FileState where
  | absent
  | decodes (v : PyVal)
  | undecodable (raw : String)

/-- `os`-level existence of the backing file. -/
def file_exists : FileState → Bool
  | .absent => false
  | .decodes _ => true
  | .undecodable _ => true

/-- `v.all pred` over the elements of a list value: is this value a JSON
array of strings, i.e. a well-formed persisted topic sequence? -/
def is_string_list : PyVal → Bool
  | .pylist xs => xs.all fun v => match v with | .pystr _ => true | _ => false
  | _ => false

/-- The well-formed file content holding exactly the topics `ts`. -/
def topics_file (ts : List String) : PyVal :=
  .pylist (ts.map .pystr)

/-- Python `str()` of a value, as used by f-string interpolation.
For strings it is the identity; integers print in decimal; the list
case follows Python's `repr`-based rendering (quoting is approximated:
no claim ever formats a non-string topic). -/
def pyStr : PyVal → String
  | .pystr s => s
  | .pyint n => toString n
  | .pylist xs => "[" ++ String.intercalate ", " (xs.attach.map fun v =>
      match v.1 with
      | .pystr s => "\x27" ++ s ++ "\x27"
      | .pyint n => toString n
      | .pylist _ => "[...]") ++ "]"

/-- Python iteration (`enumerate(v)`): lists yield their elements,
strings yield their characters, integers raise `TypeError`. -/
def pyIter : PyVal → Except PyErr (List PyVal)
  | .pylist xs => .ok xs
  | .pystr s => .ok (s.data.map fun c => .pystr (String.singleton c))
  | .pyint _ => .error .typeError

/-- Python `str.strip()`: remove whitespace from both ends. -/
def py_strip (s : String) : String :=
  String.mk (((s.data.dropWhile Char.isWhitespace).reverse.dropWhile
    Char.isWhitespace).reverse)

/-- Python `s.startswith(p)`. -/
def py_startswith (s p : String) : Bool :=
  p.data.isPrefixOf s.data

/-- Python slicing `s[n:]` (code-point indices; yields `""` past the end). -/
def py_slice_from (s : String) (n : Nat) : String :=
  String.mk (s.data.drop n)

/-! ## The topic-queue store (`botnet.py`, lines 138-164) -/

/-- `get_topics` (lines 147-153): read and decode `topics.json`.
Only `FileNotFoundError` is caught (yielding `[]`); a decode failure
propagates, and whatever value the file decodes to is returned with no
shape check. -/
def get_topics : FileState → Except PyErr PyVal
  | .absent => .ok (.pylist [])
  | .decodes v => .ok v
  | .undecodable _ => .error .jsonDecodeError

/-- `write_topics` (lines 143-145): whole-file rewrite with the
JSON dump of `topics`; the previous file state is irrelevant. -/
def write_topics (topics : PyVal) : FileState :=
  .decodes topics

/-- `add_topic` (lines 138-141): read, `append`, rewrite.  `append` on a
non-list value raises `AttributeError`. -/
def add_topic (topic : String) (fs : FileState) : Except PyErr FileState := do
  let topics ← get_topics fs
  match topics with
  | .pylist xs => .ok (write_topics (.pylist (xs ++ [.pystr topic])))
  | _ => .error .attributeError

/-- The store-effect core of `next_topic` (lines 155-164):
`topics.pop(0)` guarded by `except IndexError`.  Returns the popped
topic (`none` when the sequence was empty — the `IndexError` path, which
performs no rewrite) together with the resulting file state.  `pop` on a
non-list value raises `AttributeError`. -/
def pop_front (fs : FileState) : Except PyErr (Option PyVal × FileState) := do
  let topics ← get_topics fs
  match topics with
  | .pylist [] => .ok (none, fs)
  | .pylist (t :: rest) => .ok (some t, write_topics (.pylist rest))
  | _ => .error .attributeError

/-! ## Sending replies (`botnet.py`, lines 124-136) -/

/-- The protocol client's `room_send` primitive (an external
collaborator): raises iff the behaviour parameter `sendFails` says so. -/
def room_send (sendFails : String → Bool) (message : String) :
    Except PyErr Unit :=
  if sendFails message then .error .sendError else .ok ()

/-- `send_message` (lines 124-136): `room_send` wrapped in a blanket
`try/except` that logs and swallows any fault.  The result is the list
of messages actually delivered (empty when the send raised). -/
def send_message (sendFails : String → Bool) (message : String) :
    Except PyErr (List String) :=
  match room_send sendFails message with
  | .ok _ => .ok [message]
  | .error _ => .ok []

/-- `next_topic` (lines 155-164): pop the front topic; on the
`IndexError` path send `No topics` and return without rewriting,
otherwise send the current topic and rewrite the remainder. -/
def next_topic (sendFails : String → Bool) (fs : FileState) :
    Except PyErr (List String × FileState) := do
  match ← pop_front fs with
  | (none, fs1) =>
      let r ← send_message sendFails "No topics"
      .ok (r, fs1)
  | (some t, fs1) =>
      let r ← send_message sendFails ("Current topic is: " ++ pyStr t)
      .ok (r, fs1)

/-! ## The command dispatcher (`botnet.py`, lines 84-122) -/

/-- The fixed `#help` reply text (lines 98-106). -/
def help_text : String :=
  "Commands:\n\n#topic      - Add a new weekly topic\n#list       - List weekly topics\n#start      - Start the meeting\n#next       - Move onto next topic\n#end        - Finish the meeting\n#clear      - Clear all remaining topics\n#help       - Show this help text"

/-- The `#list` rendering (lines 109-111): 1-based numbered lines,
one `"{i}. {topic}\n"` per iterated element. -/
def render_topic_text (items : List PyVal) : String :=
  (items.enum.map fun p => toString (p.1 + 1) ++ ". " ++ pyStr p.2 ++ "\n"
    ).foldl (· ++ ·) ""

/-- `cb_print_messages` (lines 84-122): the per-event dispatcher.
Events from any room whose display name is not `"dev"` are dropped
before any other processing.  The body is stripped, then matched against
the literal prefixes in the source's `if/elif` order (`#topic` uses the
six-character prefix `"#topic"` for the match but slices the topic text
from index `len("#topic ") = 7`).  The bare `#`-echo (line 89-90) goes
to the operator console only and produces no protocol effect.  Returns
the delivered replies, in order, and the resulting file state. -/
def cb_print_messages (sendFails : String → Bool) (displayName : String)
    (body : String) (fs : FileState) :
    Except PyErr (List String × FileState) :=
  if displayName ≠ "dev" then .ok ([], fs)
  else
    let message := py_strip body
    if py_startswith message "#topic" then do
      let topic := py_slice_from message 7
      let fs1 ← add_topic topic fs
      let r ← send_message sendFails ("Added topic \x27" ++ topic ++ "\x27")
      .ok (r, fs1)
    else if py_startswith message "#help" then do
      let r ← send_message sendFails help_text
      .ok (r, fs)
    else if py_startswith message "#list" then do
      let topics ← get_topics fs
      let items ← pyIter topics
      let r ← send_message sendFails (render_topic_text items)
      .ok (r, fs)
    else if py_startswith message "#start" then do
      let r1 ← send_message sendFails "Meeting started."
      let (r2, fs1) ← next_topic sendFails fs
      .ok (r1 ++ r2, fs1)
    else if py_startswith message "#next" then
      next_topic sendFails fs
    else if py_startswith message "#clear" then do
      let fs1 := write_topics (.pylist [])
      let r ← send_message sendFails "Topics cleared."
      .ok (r, fs1)
    else if py_startswith message "#end" then do
      let r ← send_message sendFails "Meeting stopped."
      .ok (r, fs)
    else .ok ([], fs)

/-- Deliver a sequence of inbound events to the dispatcher, threading the
file state and concatenating the delivered replies. -/
def process_messages (sendFails : String → Bool) (displayName : String)
    (bodies : List String) (fs : FileState) :
    Except PyErr (List String × FileState) :=
  match bodies with
  | [] => .ok ([], fs)
  | b :: bs => do
      let (r, fs1) ← cb_print_messages sendFails displayName b fs
      let (rs, fs2) ← process_messages sendFails displayName bs fs1
      .ok (r ++ rs, fs2)

/-- A send primitive that never fails: the nominal behaviour. -/
def send_ok : String → Bool := fun _ => false

/-- Iterated `add_topic`, oldest first. -/
def add_topics : List String → FileState → Except PyErr FileState
  | [], fs => .ok fs
  | t :: ts, fs => do add_topics ts (← add_topic t fs)

/-- Iterated `pop_front`: `n` pops, collecting the popped values. -/
def pop_fronts : Nat → FileState → Except PyErr (List (Option PyVal) × FileState)
  | 0, fs => .ok ([], fs)
  | n + 1, fs => do
      let (o, fs1) ← pop_front fs
      let (os, fs2) ← pop_fronts n fs1
      .ok (o :: os, fs2)

/-- Sequencing a reply in front of a dispatcher action: deliver the
replies of `r`, then run `k` and prepend them to its replies. -/
def reply_then (r : Except PyErr (List String))
    (k : Except PyErr (List String × FileState)) :
    Except PyErr (List String × FileState) := do
  let m ← r
  let (rs, fs1) ← k
  .ok (m ++ rs, fs1)

/-! ## General lemmas about the embedded operations -/

theorem except_ok_bind {α β : Type} (a : α) (f : α → Except PyErr β) :
    (Except.ok a >>= f) = f a := rfl

theorem except_error_bind {α β : Type} (e : PyErr) (f : α → Except PyErr β) :
    (Except.error e >>= f) = Except.error e := rfl

theorem send_message_eq (sendFails : String → Bool) (m : String) :
    send_message sendFails m = .ok (if sendFails m then [] else [m]) := by
  cases h : sendFails m <;> simp [send_message, room_send, h]

theorem add_topics_decodes (ts : List String) (acc : List PyVal) :
    add_topics ts (.decodes (.pylist acc)) =
      .ok (.decodes (.pylist (acc ++ ts.map PyVal.pystr))) := by
  induction ts generalizing acc with
  | nil => simp [add_topics]
  | cons t ts ih =>
      have h : add_topic t (.decodes (.pylist acc)) =
          .ok (.decodes (.pylist (acc ++ [PyVal.pystr t]))) := rfl
      simp [add_topics, h, except_ok_bind, ih, List.append_assoc]

theorem pop_fronts_of_get_topics (vs : List PyVal) :
    ∀ fs : FileState, get_topics fs = .ok (.pylist vs) →
      ∃ fsf, pop_fronts vs.length fs = .ok (vs.map some, fsf) := by
  induction vs with
  | nil => intro fs _; exact ⟨fs, rfl⟩
  | cons v vs ih =>
      intro fs h
      have hpop : pop_front fs = .ok (some v, .decodes (.pylist vs)) := by
        unfold pop_front
        rw [h]
        rfl
      obtain ⟨fsf, hrest⟩ := ih (.decodes (.pylist vs)) rfl
      refine ⟨fsf, ?_⟩
      show pop_fronts (vs.length + 1) fs = _
      unfold pop_fronts
      rw [hpop, except_ok_bind]
      dsimp only
      rw [hrest]
      rfl

/-- Explicit description of `next_topic`: its store effect is that of
`pop_front`, and its reply depends only on the popped value and on
whether the send primitive fails on that reply. -/
theorem next_topic_eq (sf : String → Bool) (fs : FileState) :
    next_topic sf fs =
      match pop_front fs with
      | .error e => .error e
      | .ok (none, fs1) =>
          .ok (if sf "No topics" then [] else ["No topics"], fs1)
      | .ok (some t, fs1) =>
          .ok (if sf ("Current topic is: " ++ pyStr t) then []
               else ["Current topic is: " ++ pyStr t], fs1) := by
  unfold next_topic
  cases hp : pop_front fs with
  | error e => rfl
  | ok p =>
      obtain ⟨o, fs1⟩ := p
      cases o <;> simp only [send_message_eq] <;> rfl

/-- The error status and resulting file state of `next_topic` do not
depend on the behaviour of the send primitive. -/
theorem next_topic_snd (sf : String → Bool) (fs : FileState) :
    Except.map Prod.snd (next_topic sf fs) =
      Except.map Prod.snd (next_topic send_ok fs) := by
  rw [next_topic_eq, next_topic_eq]
  cases hp : pop_front fs with
  | error e => rfl
  | ok p => obtain ⟨o, fs1⟩ := p; cases o <;> rfl

/-- Sending a reply and returning a state always succeeds with that
state, whatever the send primitive does. -/
theorem map_snd_send (sf : String → Bool) (m : String) (fs1 : FileState) :
    Except.map Prod.snd
      (send_message sf m >>= fun r =>
        (Except.ok (r, fs1) : Except PyErr (List String × FileState)))
      = .ok fs1 := by
  rw [send_message_eq, except_ok_bind]
  rfl

/-! ## The claims -/

/-- Claim C1: FIFO order of the topic queue.  For every sequence of topic
strings `ts`, starting from an empty store (no backing file), performing
`add_topic` for each element in order and then `ts.length` calls to
`pop_front` returns the topics in exactly the order of `ts`. -/
theorem c1_fifo_order (ts : List String) :
    ∃ fs1 fsf, add_topics ts .absent = .ok fs1 ∧
      pop_fronts ts.length fs1 =
        .ok (ts.map fun t => some (PyVal.pystr t), fsf) := by
  cases ts with
  | nil => exact ⟨.absent, .absent, rfl, rfl⟩
  | cons t ts =>
      refine ⟨.decodes (topics_file (t :: ts)), ?_⟩
      have hadd : add_topics (t :: ts) .absent =
          .ok (.decodes (topics_file (t :: ts))) := by
        have h1 : add_topic t .absent = .ok (.decodes (.pylist [PyVal.pystr t])) := rfl
        show (add_topic t .absent >>= fun fs => add_topics ts fs) = _
        rw [h1, except_ok_bind, add_topics_decodes]
        rfl
      obtain ⟨fsf, hpop⟩ :=
        pop_fronts_of_get_topics ((t :: ts).map PyVal.pystr)
          (.decodes (topics_file (t :: ts))) rfl
      refine ⟨fsf, hadd, ?_⟩
      have hlen : ((t :: ts).map PyVal.pystr).length = (t :: ts).length :=
        List.length_map _ _
      rw [← hlen, hpop]
      simp [List.map_map, Function.comp]

/-- Claim C2: end-to-end dispatcher cycle.  From an empty store, the
inbound bodies `#topic A`, `#topic B`, `#list`, `#start`, `#next`,
`#clear`, `#next` in the `dev` room produce exactly, in order:
`Added topic 'A'`, `Added topic 'B'`, `1. A\n2. B\n`, `Meeting started.`
followed immediately by `Current topic is: A`, `Current topic is: B`,
`Topics cleared.`, `No topics`. -/
theorem c2_dispatcher_cycle :
    process_messages send_ok "dev"
      ["#topic A", "#topic B", "#list", "#start", "#next", "#clear", "#next"]
      .absent
    = .ok (["Added topic \x27A\x27", "Added topic \x27B\x27", "1. A\n2. B\n",
            "Meeting started.", "Current topic is: A", "Current topic is: B",
            "Topics cleared.", "No topics"],
           .decodes (.pylist [])) := rfl

/-- Claim C3, counterexample: popping the front of an empty store whose
backing file is absent returns the `none` sentinel but leaves the file
absent — afterwards the backing file is *not* present, contradicting the
claim that it is present and well-formed. -/
theorem c3_counterexample :
    pop_front FileState.absent = .ok (none, FileState.absent) ∧
      file_exists FileState.absent = false :=
  ⟨rfl, rfl⟩

/-- Claim C3 (amended): `pop_front` on a store whose topic sequence is
empty returns the `none` sentinel and performs no write at all, leaving
the backing file exactly as it was: a present well-formed empty file
stays present and well-formed, and an absent file stays absent (still
denoting the empty sequence). -/
theorem c3_empty_pop_leaves_file_unchanged (fs : FileState)
    (h : get_topics fs = .ok (.pylist [])) :
    pop_front fs = .ok (none, fs) := by
  unfold pop_front
  rw [h]
  rfl

/-- Witness for C3 (amended) at the present, well-formed, empty file. -/
theorem c3_witness :
    get_topics (FileState.decodes (.pylist [])) = .ok (.pylist []) ∧
      pop_front (FileState.decodes (.pylist [])) =
        .ok (none, FileState.decodes (.pylist [])) :=
  ⟨rfl, c3_empty_pop_leaves_file_unchanged _ rfl⟩

/-- Claim C4, counterexample: the backing file decoding to `[1, 2]`
exists and is not a well-formed encoding of a sequence of strings, yet
`get_topics` does not fail — `json.load` succeeds and the non-string
list is returned as-is, so the claim's universal statement is false. -/
theorem c4_counterexample :
    file_exists (FileState.decodes (.pylist [.pyint 1, .pyint 2])) = true ∧
      is_string_list (.pylist [.pyint 1, .pyint 2]) = false ∧
      get_topics (FileState.decodes (.pylist [.pyint 1, .pyint 2])) =
        .ok (.pylist [.pyint 1, .pyint 2]) :=
  ⟨rfl, rfl, rfl⟩

/-- Claim C4 (amended): only a backing file whose content fails to
*decode* makes `get_topics` fail, with the decode error propagating
uncaught; the file-absent case is the only handled failure (yielding
`[]`), and a file that decodes to any value — well-formed or not — is
returned without error or shape check. -/
theorem c4_decode_failure_propagates (raw : String) (v : PyVal) :
    get_topics (FileState.undecodable raw) = .error .jsonDecodeError ∧
      get_topics FileState.absent = .ok (.pylist []) ∧
      get_topics (FileState.decodes v) = .ok v :=
  ⟨rfl, rfl, rfl⟩

/-- Claim C5: persistence round-trip.  For every backing-file state
holding the topic sequence `vs`, `add_topic "foo"` rewrites the file to
the prior sequence with `"foo"` appended, and a fresh store instance
reading that same backing file (the source store keeps no in-memory
topic state, so a fresh read is exactly `get_topics` on the new file)
obtains the prior sequence with `"foo"` appended. -/
theorem c5_persistence_round_trip (fs : FileState) (vs : List PyVal)
    (h : get_topics fs = .ok (.pylist vs)) :
    add_topic "foo" fs =
        .ok (.decodes (.pylist (vs ++ [PyVal.pystr "foo"]))) ∧
      get_topics (.decodes (.pylist (vs ++ [PyVal.pystr "foo"]))) =
        .ok (.pylist (vs ++ [PyVal.pystr "foo"])) := by
  refine ⟨?_, rfl⟩
  unfold add_topic
  rw [h]
  rfl

/-- Witness for C5 at the empty store with no backing file: afterwards a
fresh read returns `["foo"]`. -/
theorem c5_witness :
    get_topics FileState.absent = .ok (.pylist []) ∧
      (add_topic "foo" FileState.absent =
          .ok (.decodes (.pylist [PyVal.pystr "foo"])) ∧
        get_topics (.decodes (.pylist [PyVal.pystr "foo"])) =
          .ok (.pylist [PyVal.pystr "foo"])) :=
  ⟨rfl, c5_persistence_round_trip FileState.absent [] rfl⟩

/-- Claim C6: whenever no backing file exists, `get_topics` returns the
empty sequence rather than failing (`FileNotFoundError` is caught). -/
theorem c6_absent_file_is_empty_queue (fs : FileState)
    (h : file_exists fs = false) :
    get_topics fs = .ok (.pylist []) := by
  cases fs with
  | absent => rfl
  | decodes v => simp [file_exists] at h
  | undecodable raw => simp [file_exists] at h

/-- Witness for C6 at the absent file state. -/
theorem c6_witness :
    file_exists FileState.absent = false ∧
      get_topics FileState.absent = .ok (.pylist []) :=
  ⟨rfl, c6_absent_file_is_empty_queue FileState.absent rfl⟩

/-- Claim C10: the dispatcher strips the body, matches the `#topic`
branch on the six-character prefix `"#topic"` with no trailing space
required, and takes the stripped body from character index 7 onward as
the topic text: the bare body `#topic` adds the empty-string topic and
replies `Added topic ''`; the body `#topicXY` adds `Y`; and surrounding
whitespace is stripped before matching and slicing. -/
theorem c10_topic_prefix_matching :
    cb_print_messages send_ok "dev" "#topic" .absent =
        .ok (["Added topic \x27\x27"], .decodes (.pylist [.pystr ""])) ∧
      cb_print_messages send_ok "dev" "#topicXY" .absent =
        .ok (["Added topic \x27Y\x27"], .decodes (.pylist [.pystr "Y"])) ∧
      cb_print_messages send_ok "dev" "  #topic hi  " .absent =
        .ok (["Added topic \x27hi\x27"], .decodes (.pylist [.pystr "hi"])) :=
  ⟨rfl, rfl, rfl⟩

/-- Claim C7: `#start` refines `#next`.  For every store state and every
behaviour of the send primitive, the dispatcher's handling of a `#start`
message is exactly the fixed reply `Meeting started.` sequenced before
the same replies and the same state change as its handling of a `#next`
message in that state.  The embedded state is the file state alone — no
"meeting in progress" flag exists to affect either command. -/
theorem c7_start_refines_next (sendFails : String → Bool) (fs : FileState) :
    cb_print_messages sendFails "dev" "#start" fs =
      reply_then (send_message sendFails "Meeting started.")
        (cb_print_messages sendFails "dev" "#next" fs) := rfl

/-- Claim C8: room filtering.  Every inbound message — command-prefixed
or not — from a room whose display name is not the configured `"dev"`
produces no outbound reply and leaves the backing file unchanged. -/
theorem c8_room_filtering (sendFails : String → Bool)
    (displayName body : String) (fs : FileState)
    (h : displayName ≠ "dev") :
    cb_print_messages sendFails displayName body fs = .ok ([], fs) := by
  unfold cb_print_messages
  rw [if_pos h]

/-- Witness for C8: a `#topic` command arriving from the room `lobby`
is dropped with no reply and no state change. -/
theorem c8_witness :
    ("lobby" : String) ≠ "dev" ∧
      cb_print_messages send_ok "lobby" "#topic X" FileState.absent =
        .ok ([], FileState.absent) :=
  ⟨by decide, c8_room_filtering send_ok "lobby" "#topic X" FileState.absent
    (by decide)⟩

/-- Claim C9: send-failure containment.  For every behaviour of the
outbound send primitive, `send_message` completes normally — returning
the delivered reply on success and no reply when the primitive raised,
never propagating the fault — and consequently, for every inbound
event, dispatcher processing has the same success/error status and the
same resulting file state as under a never-failing send primitive. -/
theorem c9_send_failure_contained (sendFails : String → Bool)
    (m displayName body : String) (fs : FileState) :
    send_message sendFails m = .ok (if sendFails m then [] else [m]) ∧
    Except.map Prod.snd (cb_print_messages sendFails displayName body fs) =
      Except.map Prod.snd (cb_print_messages send_ok displayName body fs) := by
  refine ⟨send_message_eq _ _, ?_⟩
  unfold cb_print_messages
  by_cases hroom : displayName ≠ "dev"
  · simp only [if_pos hroom]
  · simp only [if_neg hroom]
    by_cases h1 : py_startswith (py_strip body) "#topic" = true
    · simp only [if_pos h1]
      cases ha : add_topic (py_slice_from (py_strip body) 7) fs with
      | error e => rfl
      | ok fs1 =>
          simp only [except_ok_bind]
          rw [map_snd_send, map_snd_send]
    · simp only [if_neg h1]
      by_cases h2 : py_startswith (py_strip body) "#help" = true
      · simp only [if_pos h2]
        rw [map_snd_send, map_snd_send]
      · simp only [if_neg h2]
        by_cases h3 : py_startswith (py_strip body) "#list" = true
        · simp only [if_pos h3]
          cases hg : get_topics fs with
          | error e => rfl
          | ok v =>
              simp only [except_ok_bind]
              cases hi : pyIter v with
              | error e => rfl
              | ok items =>
                  simp only [except_ok_bind]
                  rw [map_snd_send, map_snd_send]
        · simp only [if_neg h3]
          by_cases h4 : py_startswith (py_strip body) "#start" = true
          · simp only [if_pos h4]
            simp only [send_message_eq, except_ok_bind, next_topic_eq]
            cases hp : pop_front fs with
            | error e => rfl
            | ok p => obtain ⟨o, fs1⟩ := p; cases o <;> rfl
          · simp only [if_neg h4]
            by_cases h5 : py_startswith (py_strip body) "#next" = true
            · simp only [if_pos h5]
              exact next_topic_snd sendFails fs
            · simp only [if_neg h5]
              by_cases h6 : py_startswith (py_strip body) "#clear" = true
              · simp only [if_pos h6]
                rw [map_snd_send, map_snd_send]
              · simp only [if_neg h6]
                by_cases h7 : py_startswith (py_strip body) "#end" = true
                · simp only [if_pos h7]
                  rw [map_snd_send, map_snd_send]
                · simp only [if_neg h7]

end Botnet
